import Mathlib

/-!
Verification development for the MCP session/transport core of the
chatgpt-app-typescript-template repository.

The embedding follows the TypeScript sources:
  * server/src/utils/session.ts   (SessionManager)
  * server/src/server.ts          (MCP server instance and the /mcp transport handler)
  * server/src/types.ts           (EchoToolInputSchema, EchoToolOutput, WidgetDescriptor)

JavaScript Map objects are modelled as association lists in insertion order
(set replaces in place, get returns the unique binding, iteration follows
insertion order).  Observable side effects (logger calls, transport closes,
tool execution) are modelled as explicit effect traces.  Timestamps are
integers (milliseconds, the value of Date.now / Date#getTime).
-/

namespace ChatGPTApp

/-- Opaque handle standing for an MCP Server instance object. -/
abbrev ServerHandle := Nat

/-- Opaque handle standing for a StreamableHTTPServerTransport object. -/
abbrev TransportHandle := Nat

/-- SessionData from server/src/utils/session.ts: the record held per session. -/
structure SessionData where
  server : ServerHandle
  transport : TransportHandle
  createdAt : Int
deriving DecidableEq, Repr

/-- The private sessions Map of SessionManager, as an association list in
insertion order. -/
abbrev SessionMap := List (String × SessionData)

/-- JavaScript Map.prototype.get: the value bound to the key, if any. -/
def mapGet : SessionMap → String → Option SessionData
  | [], _ => none
  | (k, v) :: rest, key => if k = key then some v else mapGet rest key

/-- JavaScript Map.prototype.set: replaces the binding in place when the key
exists, otherwise appends a new binding. -/
def mapSet : SessionMap → String → SessionData → SessionMap
  | [], key, val => [(key, val)]
  | (k, v) :: rest, key, val =>
      if k = key then (key, val) :: rest else (k, v) :: mapSet rest key val

/-- JavaScript Map.prototype.delete: removes the binding for the key. -/
def mapDeleteKey : SessionMap → String → SessionMap
  | [], _ => []
  | (k, v) :: rest, key =>
      if k = key then rest else (k, v) :: mapDeleteKey rest key

/-- Observable side effects of SessionManager operations: pino logger calls
and transport.close attempts. -/
inductive SMEffect where
  | logInfo (msg : String)
  | logDebug (msg : String)
  | logError (msg : String)
  | closeTransport (t : TransportHandle)
deriving DecidableEq, Repr

namespace SessionManager

/-- SessionManager.create: builds the SessionData record with createdAt = now,
stores it with Map.set, logs, and returns it.  There is no existence check. -/
def create (sessions : SessionMap) (sessionId : String)
    (server : ServerHandle) (transport : TransportHandle) (now : Int) :
    SessionData × SessionMap × List SMEffect :=
  let sessionData : SessionData := ⟨server, transport, now⟩
  (sessionData, mapSet sessions sessionId sessionData,
   [SMEffect.logInfo "Session created"])

/-- SessionManager.get: pure Map.get lookup. -/
def get (sessions : SessionMap) (sessionId : String) : Option SessionData :=
  mapGet sessions sessionId

/-- SessionManager.delete: Map.delete; logs only when something was removed. -/
def delete (sessions : SessionMap) (sessionId : String) :
    Bool × SessionMap × List SMEffect :=
  let deleted := (mapGet sessions sessionId).isSome
  (deleted, mapDeleteKey sessions sessionId,
   if deleted then [SMEffect.logInfo "Session deleted"] else [])

/-- The for-loop body of SessionManager.cleanup: walks the entries in
iteration order, deletes every session with now - createdAt > maxAge,
counts the deletions and logs one line per deletion. -/
def cleanupLoop : SessionMap → Int → Int → Nat × SessionMap × List SMEffect
  | [], _, _ => (0, [], [])
  | (sessionId, s) :: rest, now, maxAge =>
      let r := cleanupLoop rest now maxAge
      if now - s.createdAt > maxAge then
        (r.1 + 1, r.2.1, SMEffect.logInfo "Cleaned up stale session" :: r.2.2)
      else
        (r.1, (sessionId, s) :: r.2.1, r.2.2)

/-- SessionManager.cleanup: runs the loop, then logs a summary line when at
least one session was removed, and returns the number removed. -/
def cleanup (sessions : SessionMap) (now maxAge : Int) :
    Nat × SessionMap × List SMEffect :=
  let r := cleanupLoop sessions now maxAge
  (r.1, r.2.1,
   r.2.2 ++ if r.1 > 0 then [SMEffect.logInfo "Session cleanup complete"] else [])

/-- SessionManager.count: Map.size. -/
def count (sessions : SessionMap) : Nat :=
  sessions.length

/-- The for-loop of SessionManager.closeAll: attempts transport.close on every
session; a failing close is logged and does not stop the loop.  closeFails
models which transport.close calls throw. -/
def closeAllLoop : SessionMap → (TransportHandle → Bool) → List SMEffect
  | [], _ => []
  | (_, s) :: rest, closeFails =>
      SMEffect.closeTransport s.transport ::
        (if closeFails s.transport then
          [SMEffect.logError "Error closing transport"]
         else
          [SMEffect.logDebug "Transport closed"]) ++ closeAllLoop rest closeFails

/-- SessionManager.closeAll: logs, closes every transport best effort, then
clears the map. -/
def closeAll (sessions : SessionMap) (closeFails : TransportHandle → Bool) :
    SessionMap × List SMEffect :=
  ([], SMEffect.logInfo "Closing all sessions" ::
        closeAllLoop sessions closeFails ++ [SMEffect.logInfo "All sessions closed"])

end SessionManager

/-- A session entry is stale at time now when its age strictly exceeds maxAge
(the deletion condition of SessionManager.cleanup). -/
def isStale (now maxAge : Int) (p : String × SessionData) : Bool :=
  now - p.2.createdAt > maxAge

/-- The cleanup loop keeps exactly the entries with age at most maxAge,
unchanged and in order, and counts exactly the removed ones. -/
theorem cleanupLoop_spec (sessions : SessionMap) (now maxAge : Int) :
    (SessionManager.cleanupLoop sessions now maxAge).2.1 =
      sessions.filter (fun p => !isStale now maxAge p)
  ∧ (SessionManager.cleanupLoop sessions now maxAge).1 =
      sessions.countP (isStale now maxAge) := by
  induction sessions with
  | nil => simp [SessionManager.cleanupLoop]
  | cons hd tl ih =>
      obtain ⟨sid, s⟩ := hd
      by_cases h : maxAge < now - s.createdAt
      · have hb : isStale now maxAge (sid, s) = true := by
          simp [isStale]
          omega
        simp [SessionManager.cleanupLoop, h, List.filter_cons, List.countP_cons,
          hb, ih.1, ih.2]
      · have hb : isStale now maxAge (sid, s) = false := by
          simp [isStale]
          omega
        simp [SessionManager.cleanupLoop, h, List.filter_cons, List.countP_cons,
          hb, ih.1, ih.2]

/-- No close effect is ever emitted by the cleanup loop. -/
theorem cleanupLoop_no_close (sessions : SessionMap) (now maxAge : Int)
    (t : TransportHandle) :
    SMEffect.closeTransport t ∉ (SessionManager.cleanupLoop sessions now maxAge).2.2 := by
  induction sessions with
  | nil => simp [SessionManager.cleanupLoop]
  | cons hd tl ih =>
      obtain ⟨sid, s⟩ := hd
      by_cases h : now - s.createdAt > maxAge
      · simp [SessionManager.cleanupLoop, h, ih]
      · simp [SessionManager.cleanupLoop, h, ih]

/-- Map.get after Map.delete of a different key is unchanged. -/
theorem mapGet_mapDeleteKey_ne (m : SessionMap) (k key : String) (h : k ≠ key) :
    mapGet (mapDeleteKey m key) k = mapGet m k := by
  induction m with
  | nil => rfl
  | cons hd tl ih =>
      obtain ⟨k', v'⟩ := hd
      by_cases hk : k' = key
      · subst hk
        have h2 : ¬(k' = k) := fun hc => h (by rw [hc])
        simp [mapDeleteKey, mapGet, h2]
      · by_cases hk2 : k' = k
        · subst hk2
          simp [mapDeleteKey, mapGet, hk, h]
        · simp [mapDeleteKey, mapGet, hk, hk2, ih]

/-- Every session in the map gets a transport close attempt in the closeAll
loop. -/
theorem closeAllLoop_mem (sessions : SessionMap)
    (closeFails : TransportHandle → Bool) (p : String × SessionData)
    (hp : p ∈ sessions) :
    SMEffect.closeTransport p.2.transport ∈
      SessionManager.closeAllLoop sessions closeFails := by
  induction sessions with
  | nil => cases hp
  | cons hd tl ih =>
      obtain ⟨k', s'⟩ := hd
      rcases List.mem_cons.mp hp with h | h
      · subst h
        by_cases hf : closeFails s'.transport <;>
          simp [SessionManager.closeAllLoop, hf]
      · by_cases hf : closeFails s'.transport <;>
          simp [SessionManager.closeAllLoop, hf, ih h]

/-- Map.get after Map.set on the same key yields the value just stored. -/
theorem mapGet_mapSet_self (m : SessionMap) (k : String) (v : SessionData) :
    mapGet (mapSet m k v) k = some v := by
  induction m with
  | nil => simp [mapSet, mapGet]
  | cons hd tl ih =>
      obtain ⟨k', v'⟩ := hd
      by_cases h : k' = k
      · simp [mapSet, mapGet, h]
      · simp [mapSet, mapGet, h, ih]

/-! Embedding of the MCP server instance (server/src/server.ts,
createMcpServer) and of the echo tool input schema (server/src/types.ts). -/

/-- JSON values, the shape of request arguments. -/
inductive Json where
  | str (s : String)
  | num (n : Int)
  | jsonBool (b : Bool)
  | null
  | arr (xs : List Json)
  | obj (fields : List (String × Json))

/-- The JSON type name zod reports in invalid_type issues. -/
def jsonTypeName : Json → String
  | .str _ => "string"
  | .num _ => "number"
  | .jsonBool _ => "boolean"
  | .null => "null"
  | .arr _ => "array"
  | .obj _ => "object"

/-- WidgetDescriptor from server/src/types.ts. -/
structure WidgetDescriptor where
  id : String
  title : String
  uri : String
deriving DecidableEq, Repr

/-- ECHO_WIDGET from server/src/server.ts. -/
def ECHO_WIDGET : WidgetDescriptor :=
  { id := "echo-marquee", title := "Echo Marquee", uri := "ui://echo-marquee" }

/-- The names of the tools registered on every server instance: the tools list
returned by the list-tools handler holds exactly the echo tool. -/
def registeredToolNames : List String := ["echo"]

/-- EchoToolInput, the type produced by EchoToolInputSchema.parse. -/
structure EchoToolInput where
  message : String
deriving DecidableEq, Repr

/-- EchoToolOutput from server/src/types.ts. -/
structure EchoToolOutput where
  echoedMessage : String
  timestamp : String
deriving DecidableEq, Repr

/-- Zod validation issues raised by EchoToolInputSchema.parse. -/
inductive ZodIssue where
  | invalidType (path expected received : String)
  | tooSmall (path message : String)
deriving DecidableEq, Repr

/-- EchoToolInputSchema.parse: the argument must be an object whose message
field is a string of length at least 1 (zod: z.object with
message: z.string().min(1, "Message cannot be empty")). -/
def echoToolInputParse (args : Json) : Except ZodIssue EchoToolInput :=
  match args with
  | .obj fields =>
      match fields.lookup "message" with
      | some (.str s) =>
          if s.length ≥ 1 then .ok ⟨s⟩
          else .error (.tooSmall "message" "Message cannot be empty")
      | some v => .error (.invalidType "message" "string" (jsonTypeName v))
      | none => .error (.invalidType "message" "string" "undefined")
  | v => .error (.invalidType "" "object" (jsonTypeName v))

/-- The echo tool execution: the literal output the handler builds from the
validated input, with timestamp = new Date().toISOString(). -/
def echoToolRun (input : EchoToolInput) (timestamp : String) : EchoToolOutput :=
  { echoedMessage := input.message, timestamp := timestamp }

/-- The _meta.outputTemplate value of a call-tool response: a resource
reference naming the widget to render. -/
structure OutputTemplate where
  refType : String
  resourceUri : String
deriving DecidableEq, Repr

/-- One entry of the content array of a call-tool response. -/
structure ContentItem where
  itemType : String
  text : String
deriving DecidableEq, Repr

/-- A successful call-tool response: content, structuredContent and the
_meta.outputTemplate resource binding. -/
structure CallToolResult where
  content : List ContentItem
  structuredContent : EchoToolOutput
  outputTemplate : OutputTemplate
deriving DecidableEq, Repr

/-- Errors thrown by the call-tool handler. -/
inductive ToolCallError where
  | unknownTool (name : String)
  | invalidInput (issue : ZodIssue)
deriving DecidableEq, Repr

/-- Observable effects of the request handlers: logger calls and the echo
tool execution itself. -/
inductive ServerEffect where
  | logInfo (msg : String)
  | logDebug (msg : String)
  | logError (msg : String)
  | execEchoTool (input : EchoToolInput)
deriving DecidableEq, Repr

/-- The CallToolRequestSchema handler: logs the invocation, rejects unknown
tool names, validates the arguments (args defaults to an empty object when
absent), executes the echo tool and wraps text, structuredContent and the
outputTemplate binding; a validation failure is logged and rethrown. -/
def callToolHandler (name : String) (args : Option Json) (timestamp : String) :
    Except ToolCallError CallToolResult × List ServerEffect :=
  let entry := [ServerEffect.logInfo "Tool invoked"]
  if name ≠ "echo" then
    (.error (.unknownTool name),
     entry ++ [ServerEffect.logError ("Unknown tool: " ++ name)])
  else
    match echoToolInputParse (args.getD (.obj [])) with
    | .ok validatedInput =>
        let output := echoToolRun validatedInput timestamp
        (.ok { content :=
                 [{ itemType := "text",
                    text := "Echoing: \"" ++ validatedInput.message ++ "\"" }],
               structuredContent := output,
               outputTemplate :=
                 { refType := "resource", resourceUri := ECHO_WIDGET.uri } },
         entry ++ [ServerEffect.execEchoTool validatedInput,
                   ServerEffect.logInfo "Tool execution successful"])
    | .error issue =>
        (.error (.invalidInput issue),
         entry ++ [ServerEffect.logError "Tool execution failed"])

/-- Errors thrown by the read-resource handler. -/
inductive ResourceError where
  | unknownResource (uri : String)
  | loadFailed (err : String)
deriving DecidableEq, Repr

/-- One entry of the contents array of a read-resource response. -/
structure ResourceContents where
  uri : String
  mimeType : String
  text : String
deriving DecidableEq, Repr

/-- The ReadResourceRequestSchema handler.  The uri.startsWith check on the
string "ui://" is modelled as take 5 on the character list, and
uri.replace, which removes the first occurrence of "ui://" (under the
startsWith guard that occurrence is the 5-character head), as drop 5.
The widget HTML loader readWidgetHtml is an external collaborator and is
passed in as its result. -/
def readResourceHandler (loader : Except String String) (uri : String) :
    Except ResourceError ResourceContents :=
  if uri.toList.take 5 = "ui://".toList then
    if uri.toList.drop 5 = "echo-marquee".toList then
      match loader with
      | .ok html => .ok { uri := uri, mimeType := "text/html+skybridge", text := html }
      | .error e => .error (.loadFailed e)
    else .error (.unknownResource uri)
  else .error (.unknownResource uri)

/-! Embedding of the /mcp transport handler (app.all in server/src/server.ts,
main).  The handler runs to completion before the next request is
dispatched, so one invocation is modelled as an ordered list of its
observable events. -/

/-- An inbound /mcp request: the mcp-session-id header, the HTTP method and
whether the body is an initialize request (isInitializeRequest). -/
structure McpRequest where
  sessionId : Option String
  method : String
  isInit : Bool
deriving DecidableEq, Repr

/-- JavaScript truthiness of the optional header string: undefined and the
empty string are falsy. -/
def truthy : Option String → Bool
  | none => false
  | some s => !s.isEmpty

/-- The response the handler writes for one request. -/
inductive McpResponse where
  | handshake (sessionId : String)
  | delegated (sessionId : String)
  | badRequest (status : Nat) (code : Int) (message : String)
deriving DecidableEq, Repr

/-- The 400 response of the fallthrough branch, used both when no session id
is supplied and when the supplied id matches no session. -/
def badRequestResponse : McpResponse :=
  .badRequest 400 (-32000) "Bad Request: No valid session ID provided"

/-- Ordered observable events of one handler invocation. -/
inductive HandlerEvent where
  | serverConnect
  | respond (r : McpResponse)
  | sessionCreate (sessionId : String)
deriving DecidableEq, Repr

/-- The /mcp request handler.  In the handshake branch the transport object
is created with sessionIdGenerator = uuidv4; by the SDK contract
transport.handleRequest on an initialize request mints that id, writes the
handshake response carrying it, and exposes it as transport.sessionId, so the
minted id is a parameter here.  The sessionManager.create call happens after
transport.handleRequest has written the response. -/
def handleMcpRequest (sessions : SessionMap) (req : McpRequest)
    (minted : String) (server : ServerHandle) (transport : TransportHandle)
    (now : Int) : SessionMap × List HandlerEvent :=
  let session : Option SessionData :=
    match req.sessionId with
    | some sid => if sid.isEmpty then none else SessionManager.get sessions sid
    | none => none
  if truthy req.sessionId = false ∧ req.method = "POST" ∧ req.isInit = true then
    ((SessionManager.create sessions minted server transport now).2.1,
     [HandlerEvent.serverConnect,
      HandlerEvent.respond (.handshake minted),
      HandlerEvent.sessionCreate minted])
  else
    match req.sessionId, session with
    | some sid, some _ => (sessions, [HandlerEvent.respond (.delegated sid)])
    | _, _ => (sessions, [HandlerEvent.respond badRequestResponse])

/-- Claim C7: cleanup(M) at time now removes exactly the sessions whose age
now - createdAt strictly exceeds M, leaves every other entry unchanged and in
place, and returns exactly the number of sessions removed. -/
theorem cleanup_removes_exactly_expired (sessions : SessionMap) (now maxAge : Int) :
    (SessionManager.cleanup sessions now maxAge).2.1 =
      sessions.filter (fun p => !isStale now maxAge p)
  ∧ (SessionManager.cleanup sessions now maxAge).1 =
      sessions.countP (isStale now maxAge) :=
  ⟨(cleanupLoop_spec sessions now maxAge).1, (cleanupLoop_spec sessions now maxAge).2⟩

/-- Claim C3, counterexample: create with an identifier that is already
registered does succeed and does replace the existing session. -/
theorem create_existing_id_cex :
    (SessionManager.get
      (SessionManager.create [("s1", ⟨1, 1, 0⟩)] "s1" 2 3 5).2.1 "s1" =
        some ⟨2, 3, 5⟩)
  ∧ (SessionManager.get
      (SessionManager.create [("s1", ⟨1, 1, 0⟩)] "s1" 2 3 5).2.1 "s1" ≠
        some ⟨1, 1, 0⟩) := by
  constructor
  · rfl
  · decide

/-- Claim C3, amended: calling create with an identifier that is already
registered succeeds and replaces the existing session with the new record
(last write wins); no failure occurs. -/
theorem create_existing_id_replaces (sessions : SessionMap) (sessionId : String)
    (old : SessionData) (_h : SessionManager.get sessions sessionId = some old)
    (server : ServerHandle) (transport : TransportHandle) (now : Int) :
    (SessionManager.create sessions sessionId server transport now).1 =
      ⟨server, transport, now⟩
  ∧ SessionManager.get
      (SessionManager.create sessions sessionId server transport now).2.1 sessionId =
      some ⟨server, transport, now⟩ :=
  ⟨rfl, mapGet_mapSet_self sessions sessionId ⟨server, transport, now⟩⟩

/-- Witness for create_existing_id_replaces at a concrete registered session. -/
theorem create_existing_id_replaces_witness :
    (SessionManager.create [("s1", ⟨1, 1, 0⟩)] "s1" 2 3 5).1 = ⟨2, 3, 5⟩
  ∧ SessionManager.get
      (SessionManager.create [("s1", ⟨1, 1, 0⟩)] "s1" 2 3 5).2.1 "s1" =
      some ⟨2, 3, 5⟩ :=
  create_existing_id_replaces [("s1", ⟨1, 1, 0⟩)] "s1" ⟨1, 1, 0⟩ (by decide) 2 3 5

/-- Claim C10: create, delete and cleanup never emit a transport close effect
(delete and cleanup only touch the map, and delete leaves every other binding
unchanged); closeAll attempts a transport close for every registered session. -/
theorem only_closeAll_closes_transports (sessions : SessionMap) (sessionId : String)
    (server : ServerHandle) (transport : TransportHandle) (now maxAge : Int)
    (closeFails : TransportHandle → Bool) :
    (∀ t, SMEffect.closeTransport t ∉
        (SessionManager.create sessions sessionId server transport now).2.2)
  ∧ (∀ t, SMEffect.closeTransport t ∉
        (SessionManager.delete sessions sessionId).2.2)
  ∧ (∀ t, SMEffect.closeTransport t ∉
        (SessionManager.cleanup sessions now maxAge).2.2)
  ∧ (∀ k, k ≠ sessionId →
        mapGet (SessionManager.delete sessions sessionId).2.1 k = mapGet sessions k)
  ∧ (∀ p, p ∈ sessions →
        SMEffect.closeTransport p.2.transport ∈
          (SessionManager.closeAll sessions closeFails).2) := by
  refine ⟨?_, ?_, ?_, ?_, ?_⟩
  · intro t
    simp [SessionManager.create]
  · intro t
    by_cases h : (mapGet sessions sessionId).isSome <;>
      simp [SessionManager.delete, h]
  · intro t
    have h1 := cleanupLoop_no_close sessions now maxAge t
    by_cases h : (SessionManager.cleanupLoop sessions now maxAge).1 > 0 <;>
      simp [SessionManager.cleanup, h, h1]
  · intro k hk
    exact mapGet_mapDeleteKey_ne sessions k sessionId hk
  · intro p hp
    simp [SessionManager.closeAll, closeAllLoop_mem sessions closeFails p hp]

/-- Claim C4: for every registered tool name and schema-conformant arguments,
the call-tool handler returns a response with nonempty human-readable text
content, structuredContent equal to the tool execution output, and an
outputTemplate resource binding naming the declared widget uri. -/
theorem callTool_valid_three_parts (name : String)
    (hname : name ∈ registeredToolNames) (args : Option Json)
    (input : EchoToolInput)
    (hparse : echoToolInputParse (args.getD (.obj [])) = .ok input)
    (timestamp : String) :
    ∃ r, (callToolHandler name args timestamp).1 = .ok r
      ∧ r.content ≠ []
      ∧ (∀ c ∈ r.content, c.itemType = "text")
      ∧ r.structuredContent = echoToolRun input timestamp
      ∧ r.outputTemplate = { refType := "resource", resourceUri := ECHO_WIDGET.uri } := by
  have hn : name = "echo" := by simpa [registeredToolNames] using hname
  subst hn
  refine ⟨{ content := [{ itemType := "text",
                          text := "Echoing: \"" ++ input.message ++ "\"" }],
            structuredContent := echoToolRun input timestamp,
            outputTemplate := { refType := "resource",
                                resourceUri := ECHO_WIDGET.uri } },
          ?_, ?_, ?_, rfl, rfl⟩
  · simp [callToolHandler, hparse, echoToolRun]
  · simp
  · simp

/-- Witness for callTool_valid_three_parts on the echo tool with message
"hi". -/
theorem callTool_valid_three_parts_witness :
    ∃ r, (callToolHandler "echo" (some (.obj [("message", .str "hi")])) "T").1 = .ok r
      ∧ r.content ≠ []
      ∧ (∀ c ∈ r.content, c.itemType = "text")
      ∧ r.structuredContent = echoToolRun ⟨"hi"⟩ "T"
      ∧ r.outputTemplate = { refType := "resource", resourceUri := ECHO_WIDGET.uri } :=
  callTool_valid_three_parts "echo" (by decide)
    (some (.obj [("message", .str "hi")])) ⟨"hi"⟩ rfl "T"

/-- Claim C5: for every registered tool name, arguments that violate the input
schema make the call-tool handler fail with the validation issue, and the
tool execution never happens. -/
theorem callTool_invalid_input (name : String)
    (hname : name ∈ registeredToolNames) (args : Option Json) (issue : ZodIssue)
    (hparse : echoToolInputParse (args.getD (.obj [])) = .error issue)
    (timestamp : String) :
    (callToolHandler name args timestamp).1 = .error (.invalidInput issue)
  ∧ ∀ input, ServerEffect.execEchoTool input ∉ (callToolHandler name args timestamp).2 := by
  have hn : name = "echo" := by simpa [registeredToolNames] using hname
  subst hn
  constructor
  · simp [callToolHandler, hparse]
  · intro input
    simp [callToolHandler, hparse]

/-- Witness for callTool_invalid_input: a missing field, a wrong type and an
empty string each fail validation, and no execution effect happens. -/
theorem callTool_invalid_input_witness :
    (callToolHandler "echo" (some (.obj [])) "T").1 =
      .error (.invalidInput (.invalidType "message" "string" "undefined"))
  ∧ (callToolHandler "echo" (some (.obj [("message", .num 5)])) "T").1 =
      .error (.invalidInput (.invalidType "message" "string" "number"))
  ∧ (callToolHandler "echo" (some (.obj [("message", .str "")])) "T").1 =
      .error (.invalidInput (.tooSmall "message" "Message cannot be empty"))
  ∧ ServerEffect.execEchoTool ⟨""⟩ ∉
      (callToolHandler "echo" (some (.obj [("message", .str "")])) "T").2 := by
  have h1 := callTool_invalid_input "echo" (by decide) (some (.obj []))
    (.invalidType "message" "string" "undefined") rfl "T"
  have h2 := callTool_invalid_input "echo" (by decide)
    (some (.obj [("message", .num 5)]))
    (.invalidType "message" "string" "number") rfl "T"
  have h3 := callTool_invalid_input "echo" (by decide)
    (some (.obj [("message", .str "")]))
    (.tooSmall "message" "Message cannot be empty") rfl "T"
  exact ⟨h1.1, h2.1, h3.1, h3.2 ⟨""⟩⟩

/-- The unknown-tool error log never coincides with the execution-failure
log line. -/
theorem unknown_log_ne (name : String) :
    ("Unknown tool: " ++ name) ≠ "Tool execution failed" := by
  intro h
  have h2 : ("Unknown tool: " ++ name).data = ("Tool execution failed").data :=
    congrArg String.data h
  rw [String.data_append] at h2
  simp at h2

/-- Claim C6: for every name outside the tool registry, the call-tool handler
fails with the unknown-tool error, its effect trace is exactly the invocation
log line and the unknown-tool error line, the tool is never executed and no
execution-attempt log line (success or failure) is emitted. -/
theorem callTool_unknown_tool (name : String)
    (hname : name ∉ registeredToolNames) (args : Option Json)
    (timestamp : String) :
    (callToolHandler name args timestamp).1 = .error (.unknownTool name)
  ∧ (callToolHandler name args timestamp).2 =
      [ServerEffect.logInfo "Tool invoked",
       ServerEffect.logError ("Unknown tool: " ++ name)]
  ∧ (∀ input, ServerEffect.execEchoTool input ∉ (callToolHandler name args timestamp).2)
  ∧ ServerEffect.logInfo "Tool execution successful" ∉ (callToolHandler name args timestamp).2
  ∧ ServerEffect.logError "Tool execution failed" ∉ (callToolHandler name args timestamp).2 := by
  have hn : name ≠ "echo" := by simpa [registeredToolNames] using hname
  refine ⟨?_, ?_, ?_, ?_, ?_⟩
  · simp [callToolHandler, hn]
  · simp [callToolHandler, hn]
  · intro input
    simp [callToolHandler, hn]
  · simp [callToolHandler, hn]
  · simp [callToolHandler, hn, Ne.symm (unknown_log_ne name)]

/-- Witness for callTool_unknown_tool at the unregistered name "nope". -/
theorem callTool_unknown_tool_witness :
    (callToolHandler "nope" none "T").1 = .error (.unknownTool "nope")
  ∧ (∀ input, ServerEffect.execEchoTool input ∉ (callToolHandler "nope" none "T").2)
  ∧ ServerEffect.logInfo "Tool execution successful" ∉ (callToolHandler "nope" none "T").2 := by
  have h := callTool_unknown_tool "nope" (by decide) none "T"
  exact ⟨h.1, h.2.2.1, h.2.2.2.1⟩

/-- A uri passes both the startsWith "ui://" test and the widget id test
exactly when it is the echo widget uri. -/
theorem ui_uri_match_iff (uri : String) :
    (uri.toList.take 5 = "ui://".toList ∧ uri.toList.drop 5 = "echo-marquee".toList)
      ↔ uri = "ui://echo-marquee" := by
  constructor
  · rintro ⟨h1, h2⟩
    refine String.ext ?_
    show uri.toList = _
    calc uri.toList = uri.toList.take 5 ++ uri.toList.drop 5 :=
          (List.take_append_drop 5 uri.toList).symm
      _ = "ui://".toList ++ "echo-marquee".toList := by rw [h1, h2]
      _ = "ui://echo-marquee".toList := by decide
  · rintro rfl
    exact ⟨by decide, by decide⟩

/-- Claim C8: the read-resource handler fails with the unknown-resource error
exactly when the uri is not the registered echo widget uri; when the uri
matches and the loader succeeds it returns the loaded content, and every
successful response is tagged with the fixed mime type
"text/html+skybridge". -/
theorem readResource_spec (uri : String) (loader : Except String String) :
    (readResourceHandler loader uri = .error (.unknownResource uri)
        ↔ uri ≠ ECHO_WIDGET.uri)
  ∧ (∀ html, loader = .ok html → uri = ECHO_WIDGET.uri →
      readResourceHandler loader uri =
        .ok { uri := uri, mimeType := "text/html+skybridge", text := html })
  ∧ (∀ c, readResourceHandler loader uri = .ok c →
      c.mimeType = "text/html+skybridge") := by
  have hE : ECHO_WIDGET.uri = "ui://echo-marquee" := rfl
  by_cases hu : uri = "ui://echo-marquee"
  · subst hu
    refine ⟨?_, ?_, ?_⟩
    · cases loader with
      | ok html => simp [readResourceHandler, hE]
      | error e =>
          constructor
          · intro h
            simp [readResourceHandler] at h
          · intro h
            exact absurd hE (by simpa using h)
    · rintro html rfl _
      rfl
    · intro c hc
      cases loader with
      | ok html =>
          have : c = { uri := "ui://echo-marquee",
                       mimeType := "text/html+skybridge", text := html } := by
            simpa [readResourceHandler] using hc.symm
          rw [this]
      | error e => simp [readResourceHandler] at hc
  · have hm : ¬(uri.toList.take 5 = "ui://".toList
        ∧ uri.toList.drop 5 = "echo-marquee".toList) :=
      fun h => hu ((ui_uri_match_iff uri).mp h)
    have hr : readResourceHandler loader uri = .error (.unknownResource uri) := by
      unfold readResourceHandler
      by_cases h5 : uri.toList.take 5 = "ui://".toList
      · have hw : ¬(uri.toList.drop 5 = "echo-marquee".toList) :=
          fun h => hm ⟨h5, h⟩
        rw [if_pos h5, if_neg hw]
      · rw [if_neg h5]
    refine ⟨?_, ?_, ?_⟩
    · simp [hr, hE, hu]
    · intro html _ hc
      exact absurd (hE ▸ hc) hu
    · intro c hc
      rw [hr] at hc
      cases hc

/-- Witness for readResource_spec: a successful read of the echo widget and
an unknown-uri rejection. -/
theorem readResource_spec_witness :
    readResourceHandler (.ok "<html>") "ui://echo-marquee" =
      .ok { uri := "ui://echo-marquee", mimeType := "text/html+skybridge",
            text := "<html>" }
  ∧ readResourceHandler (.ok "<html>") "widget://echo-marquee" =
      .error (.unknownResource "widget://echo-marquee") := by
  have h1 := (readResource_spec "ui://echo-marquee" (.ok "<html>")).2.1 "<html>" rfl rfl
  have h2 := (readResource_spec "widget://echo-marquee" (.ok "<html>")).1.mpr (by decide)
  exact ⟨h1, h2⟩

/-- One entry of a per-session resumable event stream: a sequence number and
the serialized outbound message. -/
structure EventStreamEntry where
  seq : Nat
  message : String
deriving DecidableEq, Repr

/-- Modelled from the spec: the per-session Resumable Event Stream.  The
implementation, InMemoryEventStore, is imported from the MCP SDK examples and
its source is not part of this repository, so append is modelled from
section 4.3 of the spec: it assigns the next sequence number for the session,
strictly increasing and starting at 1, and stores the entry. -/
def esAppend (stream : List EventStreamEntry) (message : String) :
    Nat × List EventStreamEntry :=
  let seq := stream.length + 1
  (seq, stream ++ [⟨seq, message⟩])

/-- Modelled from the spec: replayFrom returns all entries with sequence
number greater than lastSeen, in ascending order. -/
def replayFrom (stream : List EventStreamEntry) (lastSeen : Nat) :
    List EventStreamEntry :=
  stream.filter (fun e => decide (lastSeen < e.seq))

/-- The stream obtained by appending three messages to a fresh session
stream. -/
def appendThree (m1 m2 m3 : String) : List EventStreamEntry :=
  (esAppend (esAppend (esAppend [] m1).2 m2).2 m3).2

/-- Claim C9: appending m1, m2, m3 to a fresh stream assigns sequence numbers
1, 2, 3; replayFrom returns exactly the entries with sequence number greater
than lastSeen, in strictly ascending order with no duplicate, and in
particular replayFrom 0, 1 and 3 return the full tail lists. -/
theorem eventStream_replay (m1 m2 m3 : String) :
    (esAppend [] m1).1 = 1
  ∧ (esAppend (esAppend [] m1).2 m2).1 = 2
  ∧ (esAppend (esAppend (esAppend [] m1).2 m2).2 m3).1 = 3
  ∧ replayFrom (appendThree m1 m2 m3) 0 = [⟨1, m1⟩, ⟨2, m2⟩, ⟨3, m3⟩]
  ∧ replayFrom (appendThree m1 m2 m3) 1 = [⟨2, m2⟩, ⟨3, m3⟩]
  ∧ replayFrom (appendThree m1 m2 m3) 3 = []
  ∧ (∀ lastSeen e, e ∈ replayFrom (appendThree m1 m2 m3) lastSeen ↔
      (e ∈ appendThree m1 m2 m3 ∧ lastSeen < e.seq))
  ∧ ∀ lastSeen, (replayFrom (appendThree m1 m2 m3) lastSeen).Pairwise
      (fun a b => a.seq < b.seq) := by
  have hS : appendThree m1 m2 m3 = [⟨1, m1⟩, ⟨2, m2⟩, ⟨3, m3⟩] := rfl
  have hp : (appendThree m1 m2 m3).Pairwise (fun a b => a.seq < b.seq) := by
    rw [hS]
    simp [List.pairwise_cons]
  refine ⟨rfl, rfl, rfl, rfl, rfl, rfl, ?_, ?_⟩
  · intro lastSeen e
    simp [replayFrom, List.mem_filter]
  · intro lastSeen
    exact hp.sublist (List.filter_sublist _)

/-- Witness for eventStream_replay at the concrete messages a, b, c. -/
theorem eventStream_replay_witness :
    replayFrom (appendThree "a" "b" "c") 1 = [⟨2, "b"⟩, ⟨3, "c"⟩]
  ∧ replayFrom (appendThree "a" "b" "c") 3 = [] := by
  have h := eventStream_replay "a" "b" "c"
  exact ⟨h.2.2.2.2.1, h.2.2.2.2.2.1⟩

/-- Claim C1, counterexample: in the handshake branch the response event
(written by transport.handleRequest) happens strictly before the
sessionManager.create event, so the session is not registered before the
handshake response is sent. -/
theorem handshake_registration_order_cex :
    (handleMcpRequest [] ⟨none, "POST", true⟩ "S1" 1 2 0).2 =
      [HandlerEvent.serverConnect,
       HandlerEvent.respond (.handshake "S1"),
       HandlerEvent.sessionCreate "S1"]
  ∧ List.indexOf (HandlerEvent.respond (.handshake "S1"))
      (handleMcpRequest [] ⟨none, "POST", true⟩ "S1" 1 2 0).2 <
    List.indexOf (HandlerEvent.sessionCreate "S1")
      (handleMcpRequest [] ⟨none, "POST", true⟩ "S1" 1 2 0).2 := by
  decide

/-- Claim C1, amended: the handshake branch registers the session after the
response is sent but still inside the same handler invocation, so its effect
trace ends with the registration, the resulting map holds the session under
the minted id, and any later request carrying that id is delegated to the
session rather than rejected. -/
theorem handshake_registers_before_return (sessions : SessionMap)
    (req : McpRequest) (minted : String) (server : ServerHandle)
    (transport : TransportHandle) (now : Int)
    (h1 : truthy req.sessionId = false) (h2 : req.method = "POST")
    (h3 : req.isInit = true) (h4 : minted ≠ "") :
    SessionManager.get (handleMcpRequest sessions req minted server transport now).1
        minted = some ⟨server, transport, now⟩
  ∧ (handleMcpRequest sessions req minted server transport now).2 =
      [HandlerEvent.serverConnect, HandlerEvent.respond (.handshake minted),
       HandlerEvent.sessionCreate minted]
  ∧ ∀ method2 isInit2 minted2 server2 transport2 now2,
      handleMcpRequest
          (handleMcpRequest sessions req minted server transport now).1
          ⟨some minted, method2, isInit2⟩ minted2 server2 transport2 now2 =
        ((handleMcpRequest sessions req minted server transport now).1,
         [HandlerEvent.respond (.delegated minted)]) := by
  have hget : SessionManager.get
      (handleMcpRequest sessions req minted server transport now).1 minted =
      some ⟨server, transport, now⟩ := by
    simp [handleMcpRequest, h1, h2, h3, SessionManager.create, SessionManager.get,
      mapGet_mapSet_self]
  have hempty : minted.isEmpty = false := by
    cases he : minted.isEmpty
    · rfl
    · exact absurd ((String.isEmpty_iff minted).mp he) h4
  refine ⟨hget, ?_, ?_⟩
  · simp [handleMcpRequest, h1, h2, h3]
  · intro method2 isInit2 minted2 server2 transport2 now2
    generalize hm : (handleMcpRequest sessions req minted server transport now).1 = m2 at hget ⊢
    simp [handleMcpRequest, truthy, hempty, hget]

/-- Witness for handshake_registers_before_return on a fresh handshake with
minted id "S1". -/
theorem handshake_registers_before_return_witness :
    SessionManager.get (handleMcpRequest [] ⟨none, "POST", true⟩ "S1" 1 2 0).1
        "S1" = some ⟨1, 2, 0⟩
  ∧ handleMcpRequest (handleMcpRequest [] ⟨none, "POST", true⟩ "S1" 1 2 0).1
        ⟨some "S1", "POST", false⟩ "S2" 3 4 5 =
      ((handleMcpRequest [] ⟨none, "POST", true⟩ "S1" 1 2 0).1,
       [HandlerEvent.respond (.delegated "S1")]) := by
  have h := handshake_registers_before_return [] ⟨none, "POST", true⟩ "S1" 1 2 0
    (by decide) rfl rfl (by decide)
  exact ⟨h.1, h.2.2 "POST" false "S2" 3 4 5⟩

/-- Claim C2, counterexample: a request carrying an unknown session id gets
exactly the same 400 bad-request error as a request carrying no session id at
all; there is no distinct session-not-found error (and no session is
created). -/
theorem unknown_session_same_error_cex :
    (handleMcpRequest [] ⟨some "unknown-id", "POST", false⟩ "m" 0 0 0).2 =
      (handleMcpRequest [] ⟨none, "GET", false⟩ "m" 0 0 0).2
  ∧ handleMcpRequest [] ⟨some "unknown-id", "POST", false⟩ "m" 0 0 0 =
      ([], [HandlerEvent.respond badRequestResponse]) := by
  decide

/-- Claim C2, amended: for every request carrying a (nonempty) session id
bound to no session, the handler leaves the session map unchanged (no session
is created) and responds with the generic 400 bad-request error, the same
response value it gives a request with no session id. -/
theorem unknown_session_bad_request (sessions : SessionMap) (sid : String)
    (method : String) (isInit : Bool) (minted : String) (server : ServerHandle)
    (transport : TransportHandle) (now : Int)
    (h1 : sid ≠ "") (h2 : SessionManager.get sessions sid = none) :
    handleMcpRequest sessions ⟨some sid, method, isInit⟩ minted server transport now =
      (sessions, [HandlerEvent.respond badRequestResponse])
  ∧ handleMcpRequest sessions ⟨none, "GET", false⟩ minted server transport now =
      (sessions, [HandlerEvent.respond badRequestResponse]) := by
  have hempty : sid.isEmpty = false := by
    cases he : sid.isEmpty
    · rfl
    · exact absurd ((String.isEmpty_iff sid).mp he) h1
  constructor
  · simp [handleMcpRequest, truthy, hempty, h2]
  · simp [handleMcpRequest, truthy]

/-- Witness for unknown_session_bad_request at the unknown id "unknown-id"
over the empty session map. -/
theorem unknown_session_bad_request_witness :
    handleMcpRequest [] ⟨some "unknown-id", "POST", false⟩ "m" 1 2 0 =
      ([], [HandlerEvent.respond badRequestResponse])
  ∧ handleMcpRequest [] ⟨none, "GET", false⟩ "m" 1 2 0 =
      ([], [HandlerEvent.respond badRequestResponse]) := by
  have h := unknown_session_bad_request [] "unknown-id" "POST" false "m" 1 2 0
    (by decide) rfl
  exact ⟨h.1, h.2⟩

/-- Witness for only_closeAll_closes_transports at a concrete session map. -/
theorem only_closeAll_closes_transports_witness :
    (SMEffect.closeTransport 3 ∉
      (SessionManager.delete [("s1", ⟨1, 3, 0⟩)] "s1").2.2)
  ∧ SMEffect.closeTransport 3 ∈
      (SessionManager.closeAll [("s1", ⟨1, 3, 0⟩)] (fun _ => false)).2 := by
  have h := only_closeAll_closes_transports [("s1", ⟨1, 3, 0⟩)] "s1" 1 3 0 0
    (fun _ => false)
  exact ⟨h.2.1 3, h.2.2.2.2 ("s1", ⟨1, 3, 0⟩) (by decide)⟩

end ChatGPTApp
